import Mathlib

/-!
Verification development for the Robert Half scraper repository.

The definitions below are shallow embeddings of the Python source:

* `fetch_with_retry` (src/roberthalf_scraper.py, lines 473-490): the bounded
  retry loop around `fetch_jobs`.  The network call is abstracted as an
  oracle `fetch : ℕ → Option α` giving the outcome of each attempt, and the
  `random.uniform` draw as an oracle `jitter : ℕ → ℚ`.
* the per-category pagination loop of `scrape_roberthalf_jobs`
  (lines 1261-1318), with the stubbed API as an oracle `stub : ℕ → PageResponse`.
* the cross-category deduplication (lines 1326-1340) and new-id computation
  (lines 1343-1347, 969-971).
* `load_session_data` (lines 138-171) and `get_or_refresh_session`
  (lines 331-351), with the file system and the Playwright login modelled as
  explicit inputs.
* `analyze_job` of `JobMatchAnalyzerV2` (src/job_matcher_v2.py, lines 266-395),
  with the two LLM calls abstracted as oracles returning parsed JSON objects.

Machine reals (Python floats) are modelled as `ℚ`; Python's `round(x, 1)`
(round-half-to-even) is modelled exactly on `ℚ`.
-/

namespace RobertHalf

/-- `base_wait_time = 5` — the local constant of `fetch_with_retry`
(src/roberthalf_scraper.py line 477). -/
def base_wait_time : ℚ := 5

/-- The two arguments the code passes to `random.uniform` when computing the
retry jitter: `random.uniform(0, base_wait_time / 2)` (lines 482-484). -/
def uniformJitterArgs : ℚ × ℚ := (0, base_wait_time / 2)

/-- Modelled from the spec claim's words: the jitter argument pair the claim
describes, `uniform_jitter(0, base)`. -/
def specClaimedJitterArgs : ℚ × ℚ := (0, base_wait_time)

/-- Outcome of one run of the retry loop: the returned payload (if any), the
number of calls made to `fetch_jobs`, and the list of slept delays. -/
structure RetryOutcome (α : Type) where
  result : Option α
  callCount : ℕ
  sleeps : List ℚ
  deriving Repr, DecidableEq

/-- The body of `fetch_with_retry`'s `for attempt in range(MAX_RETRIES)` loop
(src/roberthalf_scraper.py lines 478-490).  `attempt` is the current loop
index, the second `ℕ` argument the remaining iterations.  On a successful
`fetch_jobs` call the result is returned at once; on failure the loop sleeps
`base_wait_time * 2 ** attempt + random.uniform(0, base_wait_time / 2)`
and continues; when the range is exhausted it returns `None`. -/
def fetchRetryGo {α : Type} (fetch : ℕ → Option α) (jitter : ℕ → ℚ) :
    ℕ → ℕ → RetryOutcome α
  | attempt, 0 => ⟨none, attempt, []⟩
  | attempt, rem + 1 =>
    match fetch attempt with
    | some r => ⟨some r, attempt + 1, []⟩
    | none =>
      let w := base_wait_time * 2 ^ attempt + jitter attempt
      let o := fetchRetryGo fetch jitter (attempt + 1) rem
      ⟨o.result, o.callCount, w :: o.sleeps⟩

/-- `fetch_with_retry` (src/roberthalf_scraper.py lines 473-490): runs the
retry loop starting at attempt 0 with `maxRetries` iterations
(`for attempt in range(MAX_RETRIES)`). -/
def fetch_with_retry {α : Type} (fetch : ℕ → Option α) (jitter : ℕ → ℚ)
    (maxRetries : ℕ) : RetryOutcome α :=
  fetchRetryGo fetch jitter 0 maxRetries

/-- A job record.  Only the `unique_job_number` field matters for the claims
modelled here; `payload` stands for all remaining fields of the raw API
record, so that two jobs with the same id can still differ. -/
structure Job where
  unique_job_number : Option String
  payload : ℕ
  deriving Repr, DecidableEq

/-- One page of the job-search API response, as consumed by the pagination
loop: `found` is the result of `int(response_data.get("found", 0))` (`none`
models a `ValueError`/`TypeError`, which the code maps to the sentinel `-1`),
and `jobs` is `response_data.get("jobs", [])`. -/
structure PageResponse where
  found : Option ℤ
  jobs : List Job
  deriving Repr

/-- The update of `jobs_found_this_type` performed once per iteration of the
pagination loop: `None` is replaced by the parsed `found` count of the
current response, with `-1` on a parse failure; an already-set value is
kept (src/roberthalf_scraper.py lines 1281-1291). -/
def foundState (jobs_found : Option ℤ) (resp_found : Option ℤ) : ℤ :=
  match jobs_found with
  | none => (match resp_found with | some n => n | none => -1)
  | some v => v

/-- The per-category `while True` pagination loop of `scrape_roberthalf_jobs`
(src/roberthalf_scraper.py lines 1261-1318), for one category, with every
fetch succeeding (the stub `stub` gives page `page_number`'s response) and
`keep` standing for `filter_jobs_by_state`.  The first `ℕ` is fuel (the
Python loop has no bound of its own); `none` is returned only when fuel runs
out.  State: current page number, `jobs_found_this_type` (`None` before the
first response), and the accumulated filtered jobs.  On success it returns
(number of pages fetched, accumulated jobs).  Checks, in source order:
zero records → break; append filtered jobs; fewer than 25 records → break;
`jobs_found_this_type >= 0` and `page_number >= (found + 24) // 25` → break
(for `found_val ≥ 0` Lean's `Int` division agrees with Python's `//`);
otherwise continue with `page_number + 1`.  `foundState` is the update of
`jobs_found_this_type` performed on the first iteration (lines 1281-1291). -/
def paginationLoop (stub : ℕ → PageResponse) (keep : Job → Bool) :
    ℕ → ℕ → Option ℤ → List Job → Option (ℕ × List Job)
  | 0, _, _, _ => none
  | fuel + 1, page_number, jobs_found, acc =>
    let resp := stub page_number
    let found_val : ℤ := foundState jobs_found resp.found
    if resp.jobs.isEmpty then some (page_number, acc)
    else
      let acc2 := acc ++ resp.jobs.filter keep
      if resp.jobs.length < 25 then some (page_number, acc2)
      else if 0 ≤ found_val ∧ (found_val + 24) / 25 ≤ (page_number : ℤ) then
        some (page_number, acc2)
      else paginationLoop stub keep fuel (page_number + 1) (some found_val) acc2

/-- One category's fetch: the pagination loop started at page 1 with
`jobs_found_this_type = None` and an empty accumulator. -/
def fetchCategory (stub : ℕ → PageResponse) (keep : Job → Bool) (fuel : ℕ) :
    Option (ℕ × List Job) :=
  paginationLoop stub keep fuel 1 none []

/-- A fixed job used by concrete pagination stubs. -/
def stubJob : Job := ⟨some "STUB", 0⟩

/-- The stubbed API of the spec's pagination example: it reports `found = 37`
with page size 25, so page 1 carries 25 records and page 2 the remaining 12. -/
def stub37 : ℕ → PageResponse := fun p =>
  if p = 1 then ⟨some 37, List.replicate 25 stubJob⟩
  else if p = 2 then ⟨some 37, List.replicate 12 stubJob⟩
  else ⟨some 37, []⟩

/-- `job.get("unique_job_number")` followed by Python truthiness: the id if it
is present and non-empty, else `none` (src/roberthalf_scraper.py lines
1329-1336 use `if job_id:`). -/
def jobIdTruthy (j : Job) : Option String :=
  match j.unique_job_number with
  | some s => if s.isEmpty then none else some s
  | none => none

/-- The cross-category deduplication of `scrape_roberthalf_jobs`
(src/roberthalf_scraper.py lines 1326-1340): walk the concatenated list,
keep a job whose truthy id has not been seen (`unique_jobs_dict` keeps the
first occurrence, in insertion order), count a duplicate otherwise, and drop
(with a warning) jobs whose id is missing or empty.  `seen` is the key set of
`unique_jobs_dict`.  Returns (unique job list, duplicates_found). -/
def dedupGo (seen : List String) : List Job → List Job × ℕ
  | [] => ([], 0)
  | j :: rest =>
    match jobIdTruthy j with
    | some i =>
      if i ∈ seen then
        ((dedupGo seen rest).1, (dedupGo seen rest).2 + 1)
      else
        (j :: (dedupGo (i :: seen) rest).1, (dedupGo (i :: seen) rest).2)
    | none => dedupGo seen rest

/-- The deduplication pass over the full concatenated result list. -/
def deduplicateJobs (jobs : List Job) : List Job × ℕ :=
  dedupGo [] jobs

/-- Specification-side description of "keep the first occurrence of each id":
keeps an id the first time it appears (and is not already in `seen`). -/
def keepFirstOcc (seen : List String) : List String → List String
  | [] => []
  | i :: rest =>
    if i ∈ seen then keepFirstOcc seen rest
    else i :: keepFirstOcc (i :: seen) rest

/-- `{job.get("unique_job_number") for job in unique_job_list if
job.get("unique_job_number")}` (src/roberthalf_scraper.py lines 1344-1346):
the set of truthy ids of the current run. -/
def currentIds (jobs : List Job) : Finset String :=
  (jobs.filterMap jobIdTruthy).toFinset

/-- `new_job_ids = currentIds - existing_job_ids_csv`
(src/roberthalf_scraper.py lines 1344-1346). -/
def newJobIds (jobs : List Job) (previousIds : Finset String) : Finset String :=
  currentIds jobs \ previousIds

/-- `job["is_new"] = job.get("unique_job_number") in new_job_ids`
(src/roberthalf_scraper.py line 971); a missing id is Python `None`, which is
never a member of a set of strings. -/
def isNewFlag (j : Job) (newIds : Finset String) : Bool :=
  match j.unique_job_number with
  | some s => decide (s ∈ newIds)
  | none => false

/-- A small concrete job list for witnesses: a duplicated id and an id-less job. -/
def demoJobs : List Job := [⟨some "A", 0⟩, ⟨some "A", 1⟩, ⟨none, 2⟩, ⟨some "B", 3⟩]

/-- The session file's `timestamp` field after the `fromisoformat` parse
attempt of `load_session_data`: either unparseable (Python raises
`ValueError`, caught at line 167) or a parsed creation time, as hours. -/
inductive TsField where
  | invalid
  | valid (createdAt : ℚ)
  deriving Repr, DecidableEq

/-- A parsed session JSON object.  Each field is `none` when the key is
missing; an empty cookie list / empty strings are "falsy" like in Python, and
an empty (falsy) timestamp string behaves like a missing one, so it is also
modelled as `none`. -/
structure SessionRecord where
  cookies : Option (List (String × String))
  user_agent : Option String
  timestamp : Option TsField
  deriving Repr, DecidableEq

/-- The state of the session file on disk: missing, present but not valid
JSON (so `json.load` raises `JSONDecodeError`), or a parsed object. -/
inductive SessionFile where
  | absent
  | notJson
  | record (r : SessionRecord)
  deriving Repr, DecidableEq

/-- What `load_session_data` did: the returned session (cookies and user
agent), and whether it deleted (`unlink`) the session file. -/
structure LoadOutcome where
  session : Option (List (String × String) × String)
  deleted : Bool
  deriving Repr, DecidableEq

/-- `load_session_data` (src/roberthalf_scraper.py lines 138-171), a total
function of the configuration (`SAVE_SESSION`, `SESSION_MAX_AGE_HOURS`), the
current time and the file state.  Paths, in source order: saving disabled →
`None`; file missing → `None`; `json.load` failure → warn, `unlink`, `None`;
any of the three fields missing/falsy → warn, `None` (no `unlink`);
timestamp unparseable → caught `ValueError`, `unlink`, `None`; age strictly
greater than `SESSION_MAX_AGE_HOURS` → `unlink`, `None`; otherwise the
cookies and user agent are returned.  (JSON files whose top level is not an
object, or whose timestamp is not a string, make the Python raise
`AttributeError`; such shapes are outside this model, which covers the
shapes `save_session_data` can produce.) -/
def load_session_data (saveSession : Bool) (maxAgeHours now : ℚ)
    (file : SessionFile) : LoadOutcome :=
  if !saveSession then ⟨none, false⟩
  else
    match file with
    | .absent => ⟨none, false⟩
    | .notJson => ⟨none, true⟩
    | .record r =>
      match r.cookies, r.user_agent, r.timestamp with
      | some (c :: cs), some ua, some tsf =>
        if ua.isEmpty then ⟨none, false⟩
        else
          match tsf with
          | .invalid => ⟨none, true⟩
          | .valid t =>
            if maxAgeHours < now - t then ⟨none, true⟩
            else ⟨some (c :: cs, ua), false⟩
      | _, _, _ => ⟨none, false⟩

/-- A structurally incomplete session record: one of the three fields is
missing or falsy (`if not saved_cookies or not saved_user_agent or not
saved_timestamp_str`, line 154). -/
def recordIncomplete (r : SessionRecord) : Bool :=
  match r.cookies, r.user_agent, r.timestamp with
  | some (_ :: _), some ua, some _ => ua.isEmpty
  | _, _, _ => true

/-- Modelled from the amended claim's words: `load()` (with saving enabled)
returns a session exactly when the file holds a parsed record with a
non-empty cookie list, a non-empty user agent, a parseable timestamp, and
age `now - created_at` at most `max_age_hours`. -/
def loadReturnsSessionSpec (maxAgeHours now : ℚ) (file : SessionFile) : Bool :=
  match file with
  | .record r =>
    match r.cookies, r.user_agent, r.timestamp with
    | some (_ :: _), some ua, some (.valid t) =>
      !ua.isEmpty && decide (now - t ≤ maxAgeHours)
    | _, _, _ => false
  | _ => false

/-- A well-formed, fresh session record used by the C6 counterexample. -/
def freshRecord : SessionRecord := ⟨some [("cookieA", "1")], some "UA", some (.valid 0)⟩

/-- A session record missing its cookies, used by the C6 counterexample. -/
def noCookiesRecord : SessionRecord := ⟨none, some "UA", some (.valid 0)⟩

/-- What `get_or_refresh_session` did: the session it returned, and whether
it called `validate_session`, `login_and_get_session`, `save_session_data`. -/
structure AcquireOutcome (α : Type) where
  session : Option α
  validateCalled : Bool
  loginCalled : Bool
  persistCalled : Bool
  deriving Repr, DecidableEq

/-- `get_or_refresh_session` (src/roberthalf_scraper.py lines 331-351), with
the result of `load_session_data` and of `login_and_get_session` as inputs.
A loaded session is returned as-is (the re-validation call is commented out
in the source); otherwise the login flow runs and, on success, its session
is passed to `save_session_data` and returned; on login failure `None` is
returned. -/
def get_or_refresh_session {α : Type} (loadResult loginResult : Option α) :
    AcquireOutcome α :=
  match loadResult with
  | some s => ⟨some s, false, false, false⟩
  | none =>
    match loginResult with
    | some s => ⟨some s, false, true, true⟩
    | none => ⟨none, false, true, false⟩

/-- The orchestrator's use of the session (src/roberthalf_scraper.py lines
1251-1254): a `None` session raises `RuntimeError("Failed to establish a
valid session. Exiting.")`, aborting the run. -/
def establishSession {α : Type} (loadResult loginResult : Option α) : Except String α :=
  match (get_or_refresh_session loadResult loginResult).session with
  | some s => Except.ok s
  | none => Except.error "Failed to establish a valid session. Exiting."

/-- A parsed JSON value, as returned by `json.loads` on an LLM response. -/
inductive JVal where
  | null
  | num (q : ℚ)
  | bool (b : Bool)
  | str (s : String)
  | obj (fields : List (String × JVal))

/-- Python dict lookup `d.get(k)` on a parsed JSON object. -/
def jlookup (k : String) : List (String × JVal) → Option JVal
  | [] => none
  | (k2, v) :: rest => if k = k2 then some v else jlookup k rest

/-- The numeric value of a JSON value in the contexts where `analyze_job`
uses `skill_score` as a number (string formatting and comparison against the
tier-1 threshold).  Python's `bool` is an `int` subclass, so it behaves as
0/1; a string, `None`, or object there raises an uncaught
`ValueError`/`TypeError`, modelled as `none`. -/
def pyNum : JVal → Option ℚ
  | JVal.num q => some q
  | JVal.bool b => some (if b then 1 else 0)
  | _ => none

/-- Python's `float(x)` on a tier-2 sub-score, inside `analyze_job`'s
`try`/`except (ValueError, TypeError)` block: numbers and bools convert;
`None` and objects raise (caught), modelled as `none`.  Strings holding
numeric literals, which `float` would parse, are not modelled; no theorem
below depends on string-valued sub-scores. -/
def pyFloat : JVal → Option ℚ
  | JVal.num q => some q
  | JVal.bool b => some (if b then 1 else 0)
  | _ => none

/-- `tier2_result.get(k, {}).get("score", 0)` (src/job_matcher_v2.py lines
353-355): a missing key defaults to `{}` and then to score 0; an object
yields its "score" value (default 0); any non-dict value raises an uncaught
`AttributeError`, modelled as `none`. -/
def tier2SubScore (t2 : List (String × JVal)) (k : String) : Option JVal :=
  match jlookup k t2 with
  | none => some (JVal.num 0)
  | some (JVal.obj f) => some ((jlookup "score" f).getD (JVal.num 0))
  | some _ => none

/-- Round to the nearest integer, ties to even — the semantics of Python 3's
built-in `round`. -/
def roundHalfEven (q : ℚ) : ℤ :=
  if q - ⌊q⌋ < 1 / 2 then ⌊q⌋
  else if 1 / 2 < q - ⌊q⌋ then ⌊q⌋ + 1
  else if ⌊q⌋ % 2 = 0 then ⌊q⌋ else ⌊q⌋ + 1

/-- Python's `round(x, 1)`, exactly on rationals. -/
def pyRound1 (q : ℚ) : ℚ := (roundHalfEven (q * 10) : ℚ) / 10

/-- Python truthiness of an optional string (`if not job_description`):
missing and empty are falsy. -/
def strTruthy : Option String → Bool
  | some s => !s.isEmpty
  | none => false

/-- A parsed-or-`None` LLM result rendered back into a JSON value, for the
`"tier1_result": tier1_result` entry of the error dictionaries. -/
def optObj : Option (List (String × JVal)) → JVal
  | none => JVal.null
  | some fields => JVal.obj fields

/-- The dictionary returned when the candidate profile is missing or the job
has no description (src/job_matcher_v2.py lines 286, 294). -/
def errorOnlyDict (msg ts : String) : List (String × JVal) :=
  [("error", JVal.str msg), ("analysis_timestamp", JVal.str ts)]

/-- The dictionary returned when tier 1 fails (src/job_matcher_v2.py lines
303-310). -/
def tier1FailedDict (t1 : Option (List (String × JVal))) (ts : String) :
    List (String × JVal) :=
  [("error", JVal.str "Tier 1 analysis failed"),
   ("tier1_result", optObj t1),
   ("tier2_result", JVal.null),
   ("final_score_calculated", JVal.null),
   ("meets_final_threshold", JVal.bool false),
   ("analysis_timestamp", JVal.str ts)]

/-- The dictionary returned when tier 1 scores below the tier-1 threshold
(src/job_matcher_v2.py lines 318-324). -/
def belowThresholdDict (t1 : List (String × JVal)) (ts : String) :
    List (String × JVal) :=
  [("tier1_result", JVal.obj t1),
   ("tier2_result", JVal.null),
   ("final_score_calculated", JVal.null),
   ("meets_final_threshold", JVal.bool false),
   ("analysis_timestamp", JVal.str ts)]

/-- The dictionary returned when tier 2 fails (src/job_matcher_v2.py lines
334-341). -/
def tier2FailedDict (t1 : List (String × JVal)) (ts : String) :
    List (String × JVal) :=
  [("error", JVal.str "Tier 2 analysis failed"),
   ("tier1_result", JVal.obj t1),
   ("tier2_result", JVal.null),
   ("final_score_calculated", JVal.null),
   ("meets_final_threshold", JVal.bool false),
   ("analysis_timestamp", JVal.str ts)]

/-- The dictionary returned when the final-score calculation raises a caught
`ValueError`/`TypeError` (src/job_matcher_v2.py lines 367-387):
`final_score_calculated = None` and `meets_final_threshold = False`. -/
def calcFailDict (t1 t2 : List (String × JVal)) (ts : String) :
    List (String × JVal) :=
  [("tier1_result", JVal.obj t1),
   ("tier2_result", JVal.obj t2),
   ("final_score_calculated", JVal.null),
   ("meets_final_threshold", JVal.bool false),
   ("analysis_timestamp", JVal.str ts)]

/-- The full-analysis dictionary (src/job_matcher_v2.py lines 371-387), with
`meets_final_threshold = final_score_calculated >= final_threshold`. -/
def successDict (t1 t2 : List (String × JVal)) (finalScore final_threshold : ℚ)
    (ts : String) : List (String × JVal) :=
  [("tier1_result", JVal.obj t1),
   ("tier2_result", JVal.obj t2),
   ("final_score_calculated", JVal.num finalScore),
   ("meets_final_threshold", JVal.bool (decide (finalScore ≥ final_threshold))),
   ("analysis_timestamp", JVal.str ts)]

/-- What one call to `JobMatchAnalyzerV2.analyze_job` did: `result` is the
returned dictionary (`none` models an uncaught exception, which aborts the
call without returning), and `tier2Invoked` records whether the tier-2 LLM
call was made. -/
structure AnalyzeOutcome where
  result : Option (List (String × JVal))
  tier2Invoked : Bool

/-- `JobMatchAnalyzerV2.analyze_job` (src/job_matcher_v2.py lines 266-395).
Inputs: whether the candidate profile loaded, the two thresholds, the parsed
results of the tier-1 and tier-2 LLM calls (`none` = the call failed after
its internal retries, `some []` = an empty — falsy — object), the job's
`description` field, and the timestamp taken at entry.  Paths, in source
order: profile missing → error dict; falsy description → error dict;
`not tier1_result or 'skill_score' not in tier1_result` → tier-1-failed
dict; `skill_score < threshold_tier1` → below-threshold dict (tier 2 never
invoked); tier-2 call failing or falsy → tier-2-failed dict; a sub-score
whose `float(...)` raises a caught error → calc-fail dict; otherwise the
full dict with
`final = round((skill/10*0.40 + e*0.25 + l*0.20 + r*0.15) * 10, 1)`. -/
def analyze_job (profileLoaded : Bool) (threshold_tier1 final_threshold : ℚ)
    (tier1Call tier2Call : Option (List (String × JVal)))
    (description : Option String) (ts : String) : AnalyzeOutcome :=
  if !profileLoaded then
    ⟨some (errorOnlyDict "Profile not loaded" ts), false⟩
  else if !strTruthy description then
    ⟨some (errorOnlyDict "Missing description" ts), false⟩
  else
    match tier1Call with
    | none => ⟨some (tier1FailedDict none ts), false⟩
    | some t1 =>
      if t1.isEmpty then ⟨some (tier1FailedDict (some t1) ts), false⟩
      else
        match jlookup "skill_score" t1 with
        | none => ⟨some (tier1FailedDict (some t1) ts), false⟩
        | some v =>
          match pyNum v with
          | none => ⟨none, false⟩
          | some skill_score =>
            if skill_score < threshold_tier1 then
              ⟨some (belowThresholdDict t1 ts), false⟩
            else
              match tier2Call with
              | none => ⟨some (tier2FailedDict t1 ts), true⟩
              | some t2 =>
                if t2.isEmpty then ⟨some (tier2FailedDict t1 ts), true⟩
                else
                  match tier2SubScore t2 "experience_match",
                      tier2SubScore t2 "location_match",
                      tier2SubScore t2 "role_match" with
                  | some ev, some lv, some rv =>
                    match pyFloat ev, pyFloat lv, pyFloat rv with
                    | some e, some l, some r =>
                      let final_score_calculated :=
                        pyRound1 ((skill_score / 10 * 0.40 + e * 0.25
                          + l * 0.20 + r * 0.15) * 10)
                      ⟨some (successDict t1 t2 final_score_calculated final_threshold ts),
                        true⟩
                    | _, _, _ => ⟨some (calcFailDict t1 t2 ts), true⟩
                  | _, _, _ => ⟨none, true⟩

/-- Reading `meets_final_threshold` from an analysis dictionary the way the
scraper does: `analysis.get("meets_final_threshold", False)`
(src/roberthalf_scraper.py line 1070) — a missing key reads as false. -/
def meets_flag_read (d : List (String × JVal)) : Bool :=
  match jlookup "meets_final_threshold" d with
  | some (JVal.bool b) => b
  | _ => false

/-- Key-presence test on an analysis dictionary. -/
def hasKey (k : String) (d : List (String × JVal)) : Bool :=
  (jlookup k d).isSome

/-- Hypothesis shape for C10: the tier-1 result's `skill_score`, when
present, is numeric — otherwise the Python raises an uncaught `TypeError`
while formatting/comparing it, and `analyze_job` does not return. -/
def t1SkillNumeric : Option (List (String × JVal)) → Bool
  | none => true
  | some t1 =>
    match jlookup "skill_score" t1 with
    | none => true
    | some v => (pyNum v).isSome

/-- Hypothesis shape for C10: the tier-2 result's three sub-score entries,
when present, are objects (or absent) — otherwise the Python raises an
uncaught `AttributeError` on `.get`. -/
def t2SubsOk : Option (List (String × JVal)) → Bool
  | none => true
  | some t2 =>
    (tier2SubScore t2 "experience_match").isSome &&
    (tier2SubScore t2 "location_match").isSome &&
    (tier2SubScore t2 "role_match").isSome

/-- The final-score formula as the spec states it:
`round((skill_score/10 * 0.40 + experience * 0.25 + location * 0.20 +
role * 0.15) * 10, 1)`. -/
def specFinalScore (skill_score experience location role : ℚ) : ℚ :=
  pyRound1 ((skill_score / 10 * 0.40 + experience * 0.25
    + location * 0.20 + role * 0.15) * 10)

/-- A concrete tier-1 result with `skill_score = 72`. -/
def demoT1 : List (String × JVal) := [("skill_score", JVal.num 72)]

/-- A concrete tier-2 result with experience 8, location 9, role 7. -/
def demoT2 : List (String × JVal) :=
  [("experience_match", JVal.obj [("score", JVal.num 8)]),
   ("location_match", JVal.obj [("score", JVal.num 9)]),
   ("role_match", JVal.obj [("score", JVal.num 7)])]

theorem fetchRetryGo_callCount_le {α : Type} (fetch : ℕ → Option α) (jitter : ℕ → ℚ) :
    ∀ (rem attempt : ℕ), (fetchRetryGo fetch jitter attempt rem).callCount ≤ attempt + rem := by
  intro rem
  induction rem with
  | zero => intro attempt; simp [fetchRetryGo]
  | succ n ih =>
    intro attempt
    rw [fetchRetryGo]
    cases h : fetch attempt with
    | some r =>
      show attempt + 1 ≤ attempt + (n + 1)
      omega
    | none =>
      have := ih (attempt + 1)
      show (fetchRetryGo fetch jitter (attempt + 1) n).callCount ≤ attempt + (n + 1)
      omega

theorem fetchRetryGo_first_success {α : Type} (fetch : ℕ → Option α) (jitter : ℕ → ℚ)
    (i : ℕ) (p : α) :
    ∀ (rem attempt : ℕ), attempt ≤ i → i < attempt + rem →
      (∀ j, attempt ≤ j → j < i → fetch j = none) → fetch i = some p →
      (fetchRetryGo fetch jitter attempt rem).result = some p := by
  intro rem
  induction rem with
  | zero =>
    intro attempt hle hlt _ _
    omega
  | succ n ih =>
    intro attempt hle hlt hnone hsucc
    rw [fetchRetryGo]
    rcases Nat.eq_or_lt_of_le hle with heq | hlt2
    · subst heq
      simp [hsucc]
    · have hfa : fetch attempt = none := hnone attempt le_rfl hlt2
      simp only [hfa]
      exact ih (attempt + 1) hlt2 (by omega) (fun j hj hj2 => hnone j (by omega) hj2) hsucc

theorem fetchRetryGo_all_fail {α : Type} (fetch : ℕ → Option α) (jitter : ℕ → ℚ) :
    ∀ (rem attempt : ℕ), (∀ j, attempt ≤ j → j < attempt + rem → fetch j = none) →
      (fetchRetryGo fetch jitter attempt rem).result = none ∧
      (fetchRetryGo fetch jitter attempt rem).sleeps =
        (List.range rem).map (fun t => base_wait_time * 2 ^ (attempt + t) + jitter (attempt + t)) := by
  intro rem
  induction rem with
  | zero => intro attempt _; simp [fetchRetryGo]
  | succ n ih =>
    intro attempt hnone
    have hfa : fetch attempt = none := hnone attempt le_rfl (by omega)
    rw [fetchRetryGo]
    rw [hfa]
    have hrec := ih (attempt + 1) (fun j hj hj2 => hnone j (by omega) (by omega))
    constructor
    · show (fetchRetryGo fetch jitter (attempt + 1) n).result = none
      exact hrec.1
    · show (base_wait_time * 2 ^ attempt + jitter attempt) ::
          (fetchRetryGo fetch jitter (attempt + 1) n).sleeps =
        (List.range (n + 1)).map
          (fun t => base_wait_time * 2 ^ (attempt + t) + jitter (attempt + t))
      rw [hrec.2, List.range_succ_eq_map, List.map_cons, List.map_map]
      refine congrArg₂ List.cons (by simp) ?_
      refine List.map_congr_left fun t _ => ?_
      simp only [Function.comp_apply, Nat.succ_eq_add_one]
      rw [show attempt + 1 + t = attempt + (t + 1) from by omega]

/-- C1: for every page request, `fetch_with_retry` makes at most
`max_retries + 1` total calls to `fetch_jobs` before signaling failure by
returning `None` (when every attempt fails), and it returns the first
successful page payload as soon as one attempt succeeds. -/
theorem C1_fetch_with_retry_attempt_bound {α : Type} (fetch : ℕ → Option α)
    (jitter : ℕ → ℚ) (max_retries : ℕ) :
    (fetch_with_retry fetch jitter max_retries).callCount ≤ max_retries + 1 ∧
    ((∀ i, i < max_retries → fetch i = none) →
      (fetch_with_retry fetch jitter max_retries).result = none) ∧
    (∀ i p, i < max_retries → (∀ j, j < i → fetch j = none) → fetch i = some p →
      (fetch_with_retry fetch jitter max_retries).result = some p) := by
  refine ⟨?_, ?_, ?_⟩
  · have := fetchRetryGo_callCount_le fetch jitter max_retries 0
    unfold fetch_with_retry
    omega
  · intro h
    exact (fetchRetryGo_all_fail fetch jitter max_retries 0
      (fun j _ hj => h j (by omega))).1
  · intro i p hi hnone hsome
    exact fetchRetryGo_first_success fetch jitter i p max_retries 0 (Nat.zero_le i)
      (by omega) (fun j _ hj => hnone j hj) hsome

/-- Witness for C1: with `MAX_RETRIES = 3` and an oracle that fails on
attempt 0 and succeeds on attempt 1, the retry loop returns the successful
payload and stays within the attempt bound. -/
theorem C1_fetch_with_retry_attempt_bound_witness :
    (fetch_with_retry (fun i => if i = 1 then some 42 else none) (fun _ => 0) 3).result
        = some 42 ∧
    (fetch_with_retry (fun i => if i = 1 then some 42 else none) (fun _ => 0) 3).callCount
        ≤ 3 + 1 := by
  constructor
  · exact (C1_fetch_with_retry_attempt_bound
        (fun i => if i = 1 then some 42 else none) (fun _ => 0) 3).2.2 1 42
      (by decide) (fun j hj => by simp [Nat.lt_one_iff.mp hj]) (by decide)
  · exact (C1_fetch_with_retry_attempt_bound
        (fun i => if i = 1 then some 42 else none) (fun _ => 0) 3).1

/-- C5 counterexample: the claim says the jitter is drawn uniformly from
`[0, base]`, but the code calls `random.uniform(0, base_wait_time / 2)`
(src/roberthalf_scraper.py lines 482-484, comment "Adjusted jitter"), i.e.
the jitter range is `[0, base / 2]`. -/
theorem C5_jitter_range_counterexample : uniformJitterArgs ≠ specClaimedJitterArgs := by
  intro h
  have h2 := congrArg Prod.snd h
  norm_num [uniformJitterArgs, specClaimedJitterArgs, base_wait_time] at h2

/-- C5 (amended): for every failed attempt `attempt` (starting at 0), the
delay slept before the next attempt equals `base * 2 ^ attempt` plus a
jitter drawn uniformly from `[0, base / 2]` (not `[0, base]`), with the base
wait time hard-coded to 5 seconds. -/
theorem C5_retry_delay_formula {α : Type} (fetch : ℕ → Option α) (jitter : ℕ → ℚ)
    (max_retries : ℕ) :
    ((∀ i, i < max_retries → fetch i = none) →
      (fetch_with_retry fetch jitter max_retries).sleeps =
        (List.range max_retries).map
          (fun attempt => base_wait_time * 2 ^ attempt + jitter attempt)) ∧
    uniformJitterArgs = (0, base_wait_time / 2) := by
  constructor
  · intro h
    have := (fetchRetryGo_all_fail fetch jitter max_retries 0
      (fun j _ hj => h j (by omega))).2
    simpa using this
  · rfl

/-- Witness for C5: an all-failing run with `MAX_RETRIES = 2` and constant
jitter 1 sleeps exactly `5 * 2 ^ 0 + 1 = 6` and then `5 * 2 ^ 1 + 1 = 11`
seconds. -/
theorem C5_retry_delay_formula_witness :
    (fetch_with_retry (fun _ => (none : Option ℕ)) (fun _ => 1) 2).sleeps = [6, 11] := by
  refine ((C5_retry_delay_formula (fun _ => (none : Option ℕ)) (fun _ => 1) 2).1
    (fun i _ => rfl)).trans ?_
  norm_num [base_wait_time, List.range_succ]

theorem paginationLoop_isSome (stub : ℕ → PageResponse) (keep : Job → Bool)
    (n : ℤ) (hn : 0 ≤ n) :
    ∀ (fuel page : ℕ) (acc : List Job), 1 ≤ fuel → (n + 24) / 25 < (page : ℤ) + fuel →
      (paginationLoop stub keep fuel page (some n) acc).isSome := by
  intro fuel
  induction fuel with
  | zero => intro page acc h1 _; omega
  | succ f ih =>
    intro page acc _ hlt
    rw [paginationLoop]
    by_cases h1 : (stub page).jobs.isEmpty
    · simp [h1]
    · by_cases h2 : (stub page).jobs.length < 25
      · simp [h1, h2]
      · by_cases h3 : (n + 24) / 25 ≤ (page : ℤ)
        · simp [h1, h2, foundState, hn, h3]
        · have hgt : (page : ℤ) < (n + 24) / 25 := by omega
          have hf : 1 ≤ f := by omega
          simp only [h1, h2, h3, foundState, if_false, Bool.false_eq_true, and_false,
            if_neg (by simp [h3] : ¬(0 ≤ n ∧ (n + 24) / 25 ≤ (page : ℤ)))]
          have := ih (page + 1) (acc ++ (stub page).jobs.filter keep) hf (by push_cast; omega)
          simpa using this

theorem keepFirstOcc_not_mem_seen :
    ∀ (l seen : List String) (x : String), x ∈ keepFirstOcc seen l → x ∉ seen := by
  intro l
  induction l with
  | nil => intro seen x hx; simp [keepFirstOcc] at hx
  | cons i rest ih =>
    intro seen x hx
    rw [keepFirstOcc] at hx
    by_cases hi : i ∈ seen
    · rw [if_pos hi] at hx
      exact ih seen x hx
    · rw [if_neg hi] at hx
      rcases List.mem_cons.mp hx with h | h
      · subst h; exact hi
      · intro hxs
        exact ih (i :: seen) x h (List.mem_cons_of_mem i hxs)

theorem keepFirstOcc_nodup :
    ∀ (l seen : List String), (keepFirstOcc seen l).Nodup := by
  intro l
  induction l with
  | nil => intro seen; simp [keepFirstOcc]
  | cons i rest ih =>
    intro seen
    rw [keepFirstOcc]
    by_cases hi : i ∈ seen
    · rw [if_pos hi]; exact ih seen
    · rw [if_neg hi]
      refine List.nodup_cons.mpr ⟨?_, ih (i :: seen)⟩
      intro hmem
      exact keepFirstOcc_not_mem_seen rest (i :: seen) i hmem (List.mem_cons_self i seen)

theorem keepFirstOcc_toFinset :
    ∀ (l seen : List String), (keepFirstOcc seen l).toFinset = l.toFinset \ seen.toFinset := by
  intro l
  induction l with
  | nil => intro seen; simp [keepFirstOcc]
  | cons i rest ih =>
    intro seen
    rw [keepFirstOcc]
    by_cases hi : i ∈ seen
    · rw [if_pos hi, ih seen]
      ext x
      simp only [List.toFinset_cons, Finset.mem_sdiff, Finset.mem_insert, List.mem_toFinset]
      constructor
      · rintro ⟨hx, hxs⟩; exact ⟨Or.inr hx, hxs⟩
      · rintro ⟨hx | hx, hxs⟩
        · subst hx; exact absurd hi hxs
        · exact ⟨hx, hxs⟩
    · rw [if_neg hi]
      ext x
      simp only [List.toFinset_cons, Finset.mem_insert, List.mem_toFinset, ih (i :: seen),
        Finset.mem_sdiff, List.mem_cons]
      constructor
      · rintro (rfl | ⟨hx, hxs⟩)
        · exact ⟨Or.inl rfl, hi⟩
        · exact ⟨Or.inr hx, fun hs => hxs (Or.inr hs)⟩
      · rintro ⟨hx | hx, hxs⟩
        · exact Or.inl hx
        · by_cases hxi : x = i
          · exact Or.inl hxi
          · exact Or.inr ⟨hx, fun h => h.elim hxi hxs⟩

theorem dedupGo_ids :
    ∀ (l : List Job) (seen : List String),
      (dedupGo seen l).1.filterMap jobIdTruthy =
        keepFirstOcc seen (l.filterMap jobIdTruthy) := by
  intro l
  induction l with
  | nil => intro seen; simp [dedupGo, keepFirstOcc]
  | cons j rest ih =>
    intro seen
    rw [dedupGo]
    cases hid : jobIdTruthy j with
    | none => simpa [List.filterMap_cons, hid] using ih seen
    | some i =>
      by_cases hi : i ∈ seen
      · simpa [List.filterMap_cons, hid, keepFirstOcc, hi] using ih seen
      · simpa [List.filterMap_cons, hid, keepFirstOcc, hi] using ih (i :: seen)

theorem dedupGo_kept :
    ∀ (l : List Job) (seen : List String) (j : Job), j ∈ (dedupGo seen l).1 →
      (jobIdTruthy j).isSome ∧ j ∈ l := by
  intro l
  induction l with
  | nil => intro seen j hj; simp [dedupGo] at hj
  | cons k rest ih =>
    intro seen j hj
    rw [dedupGo] at hj
    split at hj
    next i hid =>
      split at hj
      next hi =>
        have := ih seen j hj
        exact ⟨this.1, List.mem_cons_of_mem k this.2⟩
      next hi =>
        rcases List.mem_cons.mp hj with h | h
        · subst h
          exact ⟨by simp [hid], List.mem_cons_self j rest⟩
        · have := ih (i :: seen) j h
          exact ⟨this.1, List.mem_cons_of_mem k this.2⟩
    next hid =>
      have := ih seen j hj
      exact ⟨this.1, List.mem_cons_of_mem k this.2⟩

theorem dedupGo_count :
    ∀ (l : List Job) (seen : List String),
      (dedupGo seen l).1.length + (dedupGo seen l).2 = (l.filterMap jobIdTruthy).length := by
  intro l
  induction l with
  | nil => intro seen; simp [dedupGo]
  | cons j rest ih =>
    intro seen
    rw [dedupGo]
    cases hid : jobIdTruthy j with
    | none => simpa [List.filterMap_cons, hid] using ih seen
    | some i =>
      by_cases hi : i ∈ seen
      · have := ih seen
        simp only [List.filterMap_cons, hid, if_pos hi, List.length_cons]
        omega
      · have := ih (i :: seen)
        simp only [List.filterMap_cons, hid, if_neg hi, List.length_cons]
        omega

theorem length_filterMap_of_isSome {α β : Type} (f : α → Option β) :
    ∀ (l : List α), (∀ x ∈ l, (f x).isSome) → (l.filterMap f).length = l.length := by
  intro l
  induction l with
  | nil => intro _; simp
  | cons a rest ih =>
    intro h
    have ha := h a (List.mem_cons_self a rest)
    cases hfa : f a with
    | none => rw [hfa] at ha; simp at ha
    | some b =>
      simp only [List.filterMap_cons, hfa, List.length_cons]
      rw [ih (fun x hx => h x (List.mem_cons_of_mem a hx))]

/-- C4: the per-category fetch loop stops, checking after each successful
page in order: (1) zero records → stop; (2) fewer records than the page size
25 → stop; (3) `page ≥ ceil(reported_total / 25)` → stop; it terminates
whenever the first page's reported total parses to some `n ≥ 0`; and with a
reported total of 37 and page size 25 it fetches exactly 2 pages. -/
theorem C4_pagination_termination :
    (∀ (stub : ℕ → PageResponse) (keep : Job → Bool) (fuel page : ℕ)
        (jf : Option ℤ) (acc : List Job),
      (stub page).jobs = [] →
      paginationLoop stub keep (fuel + 1) page jf acc = some (page, acc)) ∧
    (∀ (stub : ℕ → PageResponse) (keep : Job → Bool) (fuel page : ℕ)
        (jf : Option ℤ) (acc : List Job),
      (stub page).jobs ≠ [] → (stub page).jobs.length < 25 →
      paginationLoop stub keep (fuel + 1) page jf acc
        = some (page, acc ++ (stub page).jobs.filter keep)) ∧
    (∀ (stub : ℕ → PageResponse) (keep : Job → Bool) (fuel page : ℕ)
        (n : ℤ) (acc : List Job),
      (stub page).jobs ≠ [] → ¬(stub page).jobs.length < 25 →
      0 ≤ n → (n + 24) / 25 ≤ (page : ℤ) →
      paginationLoop stub keep (fuel + 1) page (some n) acc
        = some (page, acc ++ (stub page).jobs.filter keep)) ∧
    (∀ (stub : ℕ → PageResponse) (keep : Job → Bool) (n : ℤ),
      0 ≤ n → (stub 1).found = some n →
      (fetchCategory stub keep (((n + 24) / 25).toNat + 1)).isSome) ∧
    (fetchCategory stub37 (fun _ => true) 5).map Prod.fst = some 2 := by
  refine ⟨?_, ?_, ?_, ?_, by decide⟩
  · intro stub keep fuel page jf acc h
    rw [paginationLoop]
    simp [h]
  · intro stub keep fuel page jf acc h1 h2
    have h1b : (stub page).jobs.isEmpty = false := by
      cases hc : (stub page).jobs with
      | nil => exact absurd hc h1
      | cons a t => rfl
    rw [paginationLoop]
    simp [h1b, h2]
  · intro stub keep fuel page n acc h1 h2 hn hle
    have h1b : (stub page).jobs.isEmpty = false := by
      cases hc : (stub page).jobs with
      | nil => exact absurd hc h1
      | cons a t => rfl
    rw [paginationLoop]
    simp [h1b, h2, foundState, hn, hle]
  · intro stub keep n hn hfound
    unfold fetchCategory
    rw [paginationLoop]
    by_cases h1 : (stub 1).jobs.isEmpty
    · simp [h1]
    · by_cases h2 : (stub 1).jobs.length < 25
      · simp [h1, h2]
      · by_cases h3 : (n + 24) / 25 ≤ ((1 : ℕ) : ℤ)
        · have h3b : (n + 24) / 25 ≤ (1 : ℤ) := by push_cast at h3; exact h3
          simp [h1, h2, hfound, foundState, hn, h3b]
        · have hgt : ((1 : ℕ) : ℤ) < (n + 24) / 25 := by omega
          have hred : foundState none (stub 1).found = n := by
            simp [foundState, hfound]
          simp only [h1, h2, hred, Bool.false_eq_true,
            if_neg (by push_cast at h3 ⊢; simp [h3] :
              ¬(0 ≤ n ∧ (n + 24) / 25 ≤ ((1 : ℕ) : ℤ)))]
          apply paginationLoop_isSome stub keep n hn
          · omega
          · push_cast
            omega

/-- Witness for C4: a page with fewer than 25 records stops the loop there,
and the `found = 37` stub stops after exactly 2 pages. -/
theorem C4_pagination_termination_witness :
    paginationLoop stub37 (fun _ => true) 3 2 (some 37) []
        = some (2, (stub37 2).jobs.filter (fun _ => true)) ∧
    (fetchCategory stub37 (fun _ => true) 5).map Prod.fst = some 2 := by
  constructor
  · have h := C4_pagination_termination.2.1 stub37 (fun _ => true) 2 2 (some 37) []
      (by decide) (by decide)
    simpa using h
  · exact C4_pagination_termination.2.2.2.2

/-- C7: the cross-category merge keeps, in order, exactly the first
occurrence of each (truthy) job id, drops every job lacking an id, counts
every later occurrence as a duplicate (kept + duplicates = number of
id-carrying jobs), and is idempotent: merging the same raw list twice yields
the same unique count as merging it once. -/
theorem C7_dedup_first_occurrence (l : List Job) :
    (deduplicateJobs l).1.filterMap jobIdTruthy
        = keepFirstOcc [] (l.filterMap jobIdTruthy) ∧
    ((deduplicateJobs l).1.filterMap jobIdTruthy).Nodup ∧
    (∀ j ∈ (deduplicateJobs l).1, (jobIdTruthy j).isSome ∧ j ∈ l) ∧
    (deduplicateJobs l).1.length + (deduplicateJobs l).2
        = (l.filterMap jobIdTruthy).length ∧
    (deduplicateJobs (l ++ l)).1.length = (deduplicateJobs l).1.length := by
  refine ⟨dedupGo_ids l [], ?_, ?_, dedupGo_count l [], ?_⟩
  · rw [show (deduplicateJobs l).1 = (dedupGo [] l).1 from rfl, dedupGo_ids l []]
    exact keepFirstOcc_nodup _ []
  · exact fun j hj => dedupGo_kept l [] j hj
  · have len_eq : ∀ (L : List Job), (deduplicateJobs L).1.length
        = ((L.filterMap jobIdTruthy).toFinset \ ([] : List String).toFinset).card := by
      intro L
      have h1 : ((deduplicateJobs L).1.filterMap jobIdTruthy).length
          = (deduplicateJobs L).1.length :=
        length_filterMap_of_isSome jobIdTruthy (deduplicateJobs L).1
          (fun x hx => (dedupGo_kept L [] x hx).1)
      rw [← h1, show (deduplicateJobs L).1 = (dedupGo [] L).1 from rfl, dedupGo_ids L [],
        ← keepFirstOcc_toFinset]
      exact (List.toFinset_card_of_nodup (keepFirstOcc_nodup _ [])).symm
    rw [len_eq (l ++ l), len_eq l]
    simp [List.filterMap_append]

/-- Witness for C7: in the demo list every kept job carries an id, and
merging the list twice gives the same unique count as merging it once. -/
theorem C7_dedup_first_occurrence_witness :
    ((jobIdTruthy ⟨some "A", 0⟩).isSome ∧ (⟨some "A", 0⟩ : Job) ∈ demoJobs) ∧
    (deduplicateJobs (demoJobs ++ demoJobs)).1.length
        = (deduplicateJobs demoJobs).1.length := by
  exact ⟨(C7_dedup_first_occurrence demoJobs).2.2.1 ⟨some "A", 0⟩ (by decide),
    (C7_dedup_first_occurrence demoJobs).2.2.2.2⟩

/-- C8: the set of new job ids is exactly `currentIds \ previousIds`, hence
a subset of `currentIds`, and a job whose id is in `previousIds` is never
flagged `is_new`. -/
theorem C8_new_ids_set_difference (jobs : List Job) (previousIds : Finset String) :
    newJobIds jobs previousIds = currentIds jobs \ previousIds ∧
    newJobIds jobs previousIds ⊆ currentIds jobs ∧
    ∀ (j : Job) (s : String), j.unique_job_number = some s → s ∈ previousIds →
      isNewFlag j (newJobIds jobs previousIds) = false := by
  refine ⟨rfl, Finset.sdiff_subset, ?_⟩
  intro j s hid hs
  simp [isNewFlag, hid, newJobIds, Finset.mem_sdiff, hs]

/-- Witness for C8: a job whose id is in the previous-run ledger is not
flagged new. -/
theorem C8_new_ids_set_difference_witness :
    isNewFlag ⟨some "X", 0⟩ (newJobIds [⟨some "X", 0⟩] {"X"}) = false := by
  exact (C8_new_ids_set_difference [⟨some "X", 0⟩] {"X"}).2.2 ⟨some "X", 0⟩ "X" rfl
    (by simp)

/-- C6 counterexample: the claim's "exactly when" fails on two counts.
With session saving disabled, `load()` returns absent even though the very
same persisted record is complete and fresh (the same call with saving
enabled returns it); and an incomplete record (missing cookies) is returned
absent *without* being deleted, although a corrupt record is present. -/
theorem C6_load_counterexample :
    (load_session_data true 12 0 (SessionFile.record freshRecord)).session.isSome = true ∧
    (load_session_data false 12 0 (SessionFile.record freshRecord)).session = none ∧
    load_session_data true 12 0 (SessionFile.record noCookiesRecord) =
      ⟨none, false⟩ := by
  refine ⟨?_, rfl, rfl⟩
  have hua : "UA".isEmpty = false := rfl
  norm_num [load_session_data, freshRecord, hua]

/-- C6 (amended): with session saving enabled, `load()` returns a session
exactly when a persisted record exists, parses, carries a non-empty cookie
list, user agent and timestamp, the timestamp parses, and the age
`now - created_at` is at most `max_age_hours`; it deletes the file on a JSON
parse failure, an unparseable timestamp, or expiry (even with otherwise
well-formed cookie data), but returns an incomplete record absent *without*
deleting it; with saving disabled it returns absent and touches nothing.
All paths return (the embedding is a total function): caught errors are
never fatal. -/
theorem C6_load_session_contract (maxAgeHours now : ℚ) :
    (∀ file, (load_session_data true maxAgeHours now file).session.isSome
        = loadReturnsSessionSpec maxAgeHours now file) ∧
    (load_session_data true maxAgeHours now SessionFile.notJson).deleted = true ∧
    (∀ (c : String × String) (cs : List (String × String)) (ua : String),
      ua.isEmpty = false →
      load_session_data true maxAgeHours now
          (SessionFile.record ⟨some (c :: cs), some ua, some TsField.invalid⟩)
        = ⟨none, true⟩) ∧
    (∀ c cs ua t, ua.isEmpty = false → maxAgeHours < now - t →
      load_session_data true maxAgeHours now
          (SessionFile.record ⟨some (c :: cs), some ua, some (TsField.valid t)⟩)
        = ⟨none, true⟩) ∧
    (∀ r, recordIncomplete r = true →
      load_session_data true maxAgeHours now (SessionFile.record r) = ⟨none, false⟩) ∧
    (∀ file, load_session_data false maxAgeHours now file = ⟨none, false⟩) := by
  refine ⟨?_, rfl, ?_, ?_, ?_, fun file => rfl⟩
  · intro file
    cases file with
    | absent => rfl
    | notJson => rfl
    | record r =>
      obtain ⟨co, ua0, ts0⟩ := r
      cases co with
      | none => rfl
      | some cl =>
        cases cl with
        | nil => rfl
        | cons c cs =>
          cases ua0 with
          | none => rfl
          | some ua =>
            cases ts0 with
            | none => rfl
            | some tsf =>
              cases tsf with
              | invalid =>
                by_cases hua : ua.isEmpty <;>
                  simp [load_session_data, loadReturnsSessionSpec, hua]
              | valid t =>
                by_cases hua : ua.isEmpty
                · simp [load_session_data, loadReturnsSessionSpec, hua]
                · by_cases hexp : maxAgeHours < now - t
                  · have hnle : ¬(now - t ≤ maxAgeHours) := not_le.mpr hexp
                    simp [load_session_data, loadReturnsSessionSpec, hua, hexp, hnle]
                  · have hle : now - t ≤ maxAgeHours := not_lt.mp hexp
                    simp [load_session_data, loadReturnsSessionSpec, hua, hexp, hle]
  · intro c cs ua hua
    simp [load_session_data, hua]
  · intro c cs ua t hua hexp
    simp [load_session_data, hua, hexp]
  · intro r hr
    obtain ⟨co, ua0, ts0⟩ := r
    cases co with
    | none => rfl
    | some cl =>
      cases cl with
      | nil => rfl
      | cons c cs =>
        cases ua0 with
        | none => rfl
        | some ua =>
          cases ts0 with
          | none => rfl
          | some tsf =>
            have hua : ua.isEmpty = true := by
              simpa [recordIncomplete] using hr
            simp [load_session_data, hua]

/-- Witness for C6: the spec's example scenario — a well-formed session file
whose age (100 hours at max age 12) exceeds the limit is discarded and
deleted by `load()`. -/
theorem C6_load_session_contract_witness :
    load_session_data true 12 100
        (SessionFile.record ⟨some [("cookieA", "1")], some "UA", some (TsField.valid 0)⟩)
      = ⟨none, true⟩ := by
  exact (C6_load_session_contract 12 100).2.2.2.1 ("cookieA", "1") [] "UA" 0 rfl
    (by norm_num)

/-- C9: `get_or_refresh_session` returns a loaded session unchanged, calling
neither `validate_session` nor the login flow; when nothing was loaded it
runs the login flow, persists a successful login result and returns it; and
when login also fails, the orchestrator aborts the run with the fatal
"Failed to establish a valid session" error. -/
theorem C9_acquire_session {α : Type} (loadResult loginResult : Option α) :
    (∀ s, loadResult = some s →
      get_or_refresh_session loadResult loginResult = ⟨some s, false, false, false⟩) ∧
    (loadResult = none →
      (get_or_refresh_session loadResult loginResult).session = loginResult ∧
      (get_or_refresh_session loadResult loginResult).loginCalled = true ∧
      (get_or_refresh_session loadResult loginResult).persistCalled = loginResult.isSome) ∧
    (loadResult = none → loginResult = none →
      establishSession loadResult loginResult
        = Except.error "Failed to establish a valid session. Exiting.") ∧
    (get_or_refresh_session loadResult loginResult).validateCalled = false := by
  refine ⟨?_, ?_, ?_, ?_⟩
  · intro s hs
    subst hs
    rfl
  · intro h
    subst h
    cases loginResult <;> simp [get_or_refresh_session]
  · intro h1 h2
    subst h1; subst h2
    rfl
  · cases loadResult with
    | none => cases loginResult <;> rfl
    | some s => rfl

/-- Witness for C9: a loaded session is returned untouched, and the
double-failure case aborts with the fatal error. -/
theorem C9_acquire_session_witness :
    get_or_refresh_session (some 7) (none : Option ℕ) = ⟨some 7, false, false, false⟩ ∧
    establishSession (none : Option ℕ) none
      = Except.error "Failed to establish a valid session. Exiting." := by
  exact ⟨(C9_acquire_session (some 7) (none : Option ℕ)).1 7 rfl,
    (C9_acquire_session (none : Option ℕ) none).2.2.1 rfl rfl⟩

theorem analyze_job_no_profile (θ1 θF : ℚ) (t1o t2o : Option (List (String × JVal)))
    (desc : Option String) (ts : String) :
    analyze_job false θ1 θF t1o t2o desc ts
      = ⟨some (errorOnlyDict "Profile not loaded" ts), false⟩ := rfl

theorem analyze_job_no_desc (θ1 θF : ℚ) (t1o t2o : Option (List (String × JVal)))
    (desc : Option String) (ts : String) (hd : strTruthy desc = false) :
    analyze_job true θ1 θF t1o t2o desc ts
      = ⟨some (errorOnlyDict "Missing description" ts), false⟩ := by
  unfold analyze_job
  simp [hd]

theorem analyze_job_t1_none (θ1 θF : ℚ) (t2o : Option (List (String × JVal)))
    (desc : Option String) (ts : String) (hd : strTruthy desc = true) :
    analyze_job true θ1 θF none t2o desc ts
      = ⟨some (tier1FailedDict none ts), false⟩ := by
  unfold analyze_job
  simp [hd]

theorem analyze_job_t1_empty (θ1 θF : ℚ) (t1 : List (String × JVal))
    (t2o : Option (List (String × JVal))) (desc : Option String) (ts : String)
    (hd : strTruthy desc = true) (h1 : t1.isEmpty = true) :
    analyze_job true θ1 θF (some t1) t2o desc ts
      = ⟨some (tier1FailedDict (some t1) ts), false⟩ := by
  unfold analyze_job
  simp [hd, h1]

theorem analyze_job_t1_noscore (θ1 θF : ℚ) (t1 : List (String × JVal))
    (t2o : Option (List (String × JVal))) (desc : Option String) (ts : String)
    (hd : strTruthy desc = true) (h1 : t1.isEmpty = false)
    (hsk : jlookup "skill_score" t1 = none) :
    analyze_job true θ1 θF (some t1) t2o desc ts
      = ⟨some (tier1FailedDict (some t1) ts), false⟩ := by
  unfold analyze_job
  simp [hd, h1, hsk]

theorem analyze_job_below (θ1 θF : ℚ) (t1 : List (String × JVal))
    (t2o : Option (List (String × JVal))) (desc : Option String) (ts : String)
    (v : JVal) (ss : ℚ)
    (hd : strTruthy desc = true) (h1 : t1.isEmpty = false)
    (hsk : jlookup "skill_score" t1 = some v) (hv : pyNum v = some ss)
    (hlt : ss < θ1) :
    analyze_job true θ1 θF (some t1) t2o desc ts
      = ⟨some (belowThresholdDict t1 ts), false⟩ := by
  unfold analyze_job
  simp [hd, h1, hsk, hv, hlt]

theorem analyze_job_t2_none (θ1 θF : ℚ) (t1 : List (String × JVal))
    (desc : Option String) (ts : String) (v : JVal) (ss : ℚ)
    (hd : strTruthy desc = true) (h1 : t1.isEmpty = false)
    (hsk : jlookup "skill_score" t1 = some v) (hv : pyNum v = some ss)
    (hge : ¬ss < θ1) :
    analyze_job true θ1 θF (some t1) none desc ts
      = ⟨some (tier2FailedDict t1 ts), true⟩ := by
  unfold analyze_job
  simp [hd, h1, hsk, hv, hge]

theorem analyze_job_t2_empty (θ1 θF : ℚ) (t1 t2 : List (String × JVal))
    (desc : Option String) (ts : String) (v : JVal) (ss : ℚ)
    (hd : strTruthy desc = true) (h1 : t1.isEmpty = false)
    (hsk : jlookup "skill_score" t1 = some v) (hv : pyNum v = some ss)
    (hge : ¬ss < θ1) (h2 : t2.isEmpty = true) :
    analyze_job true θ1 θF (some t1) (some t2) desc ts
      = ⟨some (tier2FailedDict t1 ts), true⟩ := by
  unfold analyze_job
  simp [hd, h1, hsk, hv, hge, h2]

theorem analyze_job_subscore_attr (θ1 θF : ℚ) (t1 t2 : List (String × JVal))
    (desc : Option String) (ts : String) (v : JVal) (ss : ℚ)
    (hd : strTruthy desc = true) (h1 : t1.isEmpty = false)
    (hsk : jlookup "skill_score" t1 = some v) (hv : pyNum v = some ss)
    (hge : ¬ss < θ1) (h2 : t2.isEmpty = false)
    (hfail : tier2SubScore t2 "experience_match" = none ∨
      tier2SubScore t2 "location_match" = none ∨
      tier2SubScore t2 "role_match" = none) :
    analyze_job true θ1 θF (some t1) (some t2) desc ts = ⟨none, true⟩ := by
  unfold analyze_job
  cases hev : tier2SubScore t2 "experience_match" <;>
    cases hlv : tier2SubScore t2 "location_match" <;>
      cases hrv : tier2SubScore t2 "role_match" <;>
        simp_all [hd, h1, hsk, hv, hge, h2]

theorem analyze_job_calc_fail (θ1 θF : ℚ) (t1 t2 : List (String × JVal))
    (desc : Option String) (ts : String) (v ev lv rv : JVal) (ss : ℚ)
    (hd : strTruthy desc = true) (h1 : t1.isEmpty = false)
    (hsk : jlookup "skill_score" t1 = some v) (hv : pyNum v = some ss)
    (hge : ¬ss < θ1) (h2 : t2.isEmpty = false)
    (hev : tier2SubScore t2 "experience_match" = some ev)
    (hlv : tier2SubScore t2 "location_match" = some lv)
    (hrv : tier2SubScore t2 "role_match" = some rv)
    (hfail : pyFloat ev = none ∨ pyFloat lv = none ∨ pyFloat rv = none) :
    analyze_job true θ1 θF (some t1) (some t2) desc ts
      = ⟨some (calcFailDict t1 t2 ts), true⟩ := by
  unfold analyze_job
  cases hpe : pyFloat ev <;>
    cases hpl : pyFloat lv <;>
      cases hpr : pyFloat rv <;>
        simp_all [hd, h1, hsk, hv, hge, h2, hev, hlv, hrv]

theorem analyze_job_success (θ1 θF : ℚ) (t1 t2 : List (String × JVal))
    (desc : Option String) (ts : String) (v ev lv rv : JVal) (ss e l r : ℚ)
    (hd : strTruthy desc = true) (h1 : t1.isEmpty = false)
    (hsk : jlookup "skill_score" t1 = some v) (hv : pyNum v = some ss)
    (hge : ¬ss < θ1) (h2 : t2.isEmpty = false)
    (hev : tier2SubScore t2 "experience_match" = some ev)
    (hfe : pyFloat ev = some e)
    (hlv : tier2SubScore t2 "location_match" = some lv)
    (hfl : pyFloat lv = some l)
    (hrv : tier2SubScore t2 "role_match" = some rv)
    (hfr : pyFloat rv = some r) :
    analyze_job true θ1 θF (some t1) (some t2) desc ts
      = ⟨some (successDict t1 t2 (specFinalScore ss e l r) θF ts), true⟩ := by
  unfold analyze_job
  simp [hd, h1, hsk, hv, hge, h2, hev, hfe, hlv, hfl, hrv, hfr, specFinalScore]

theorem analysis_dict_false_invariants (θF : ℚ) (D : List (String × JVal))
    (hm : meets_flag_read D = false) :
    (meets_flag_read D = true →
      ∃ q, jlookup "final_score_calculated" D = some (JVal.num q) ∧ θF ≤ q) ∧
    (hasKey "error" D = true → meets_flag_read D = false) :=
  ⟨fun h => absurd (hm.symm.trans h) (by simp), fun _ => hm⟩

/-- C2: for every analyzed job whose tier-1 `skill_score` is below the
tier-1 threshold, the returned analysis has `tier2_result = null`,
`final_score_calculated = null` and `meets_final_threshold = false`, and the
tier-2 LLM call is never invoked; conversely tier 2 is invoked whenever
tier 1 succeeds with `skill_score ≥ tier1_threshold`. -/
theorem C2_tier2_gating (θ1 θF : ℚ) (t1 : List (String × JVal))
    (t2o : Option (List (String × JVal))) (desc : Option String) (ts : String)
    (v : JVal) (ss : ℚ)
    (hd : strTruthy desc = true) (h1 : t1.isEmpty = false)
    (hsk : jlookup "skill_score" t1 = some v) (hv : pyNum v = some ss) :
    (ss < θ1 →
      analyze_job true θ1 θF (some t1) t2o desc ts
          = ⟨some (belowThresholdDict t1 ts), false⟩ ∧
      jlookup "tier2_result" (belowThresholdDict t1 ts) = some JVal.null ∧
      jlookup "final_score_calculated" (belowThresholdDict t1 ts) = some JVal.null ∧
      jlookup "meets_final_threshold" (belowThresholdDict t1 ts)
          = some (JVal.bool false)) ∧
    (θ1 ≤ ss →
      (analyze_job true θ1 θF (some t1) t2o desc ts).tier2Invoked = true) := by
  constructor
  · intro hlt
    exact ⟨analyze_job_below θ1 θF t1 t2o desc ts v ss hd h1 hsk hv hlt, rfl, rfl, rfl⟩
  · intro hge
    have hge2 : ¬ss < θ1 := not_lt.mpr hge
    cases t2o with
    | none => rw [analyze_job_t2_none θ1 θF t1 desc ts v ss hd h1 hsk hv hge2]
    | some t2 =>
      cases h2e : t2.isEmpty with
      | true => rw [analyze_job_t2_empty θ1 θF t1 t2 desc ts v ss hd h1 hsk hv hge2 h2e]
      | false =>
        cases hev : tier2SubScore t2 "experience_match" with
        | none =>
          rw [analyze_job_subscore_attr θ1 θF t1 t2 desc ts v ss hd h1 hsk hv hge2 h2e
            (Or.inl hev)]
        | some ev =>
          cases hlv : tier2SubScore t2 "location_match" with
          | none =>
            rw [analyze_job_subscore_attr θ1 θF t1 t2 desc ts v ss hd h1 hsk hv hge2 h2e
              (Or.inr (Or.inl hlv))]
          | some lv =>
            cases hrv : tier2SubScore t2 "role_match" with
            | none =>
              rw [analyze_job_subscore_attr θ1 θF t1 t2 desc ts v ss hd h1 hsk hv hge2 h2e
                (Or.inr (Or.inr hrv))]
            | some rv =>
              cases hfe : pyFloat ev with
              | none =>
                rw [analyze_job_calc_fail θ1 θF t1 t2 desc ts v ev lv rv ss hd h1 hsk hv
                  hge2 h2e hev hlv hrv (Or.inl hfe)]
              | some e =>
                cases hfl : pyFloat lv with
                | none =>
                  rw [analyze_job_calc_fail θ1 θF t1 t2 desc ts v ev lv rv ss hd h1 hsk hv
                    hge2 h2e hev hlv hrv (Or.inr (Or.inl hfl))]
                | some l =>
                  cases hfr : pyFloat rv with
                  | none =>
                    rw [analyze_job_calc_fail θ1 θF t1 t2 desc ts v ev lv rv ss hd h1 hsk hv
                      hge2 h2e hev hlv hrv (Or.inr (Or.inr hfr))]
                  | some r =>
                    rw [analyze_job_success θ1 θF t1 t2 desc ts v ev lv rv ss e l r hd h1
                      hsk hv hge2 h2e hev hfe hlv hfl hrv hfr]

/-- Witness for C2: with `skill_score = 72` and tier-1 threshold 80 the
below-threshold dictionary is returned without invoking tier 2; with
threshold 60 tier 2 is invoked. -/
theorem C2_tier2_gating_witness :
    analyze_job true 80 75 (some demoT1) (some demoT2) (some "desc") "t"
        = ⟨some (belowThresholdDict demoT1 "t"), false⟩ ∧
    (analyze_job true 60 75 (some demoT1) (some demoT2) (some "desc") "t").tier2Invoked
        = true := by
  constructor
  · exact ((C2_tier2_gating 80 75 demoT1 (some demoT2) (some "desc") "t"
      (JVal.num 72) 72 rfl rfl rfl rfl).1 (by norm_num)).1
  · exact (C2_tier2_gating 60 75 demoT1 (some demoT2) (some "desc") "t"
      (JVal.num 72) 72 rfl rfl rfl rfl).2 (by norm_num)

/-- C3: when tier 1 and tier 2 both succeed with numeric sub-scores, the
final score equals
`round((skill_score/10 * 0.40 + experience * 0.25 + location * 0.20 +
role * 0.15) * 10, 1)` — a pure function of those inputs — and
`meets_final_threshold` is exactly `final ≥ final_threshold`; in particular
skill 72, experience 8, location 9, role 7 yield 77.3, and with final
threshold 75 the returned `meets_final_threshold` is true. -/
theorem C3_final_score_formula :
    (∀ (θ1 θF : ℚ) (t1 t2 : List (String × JVal)) (desc : Option String) (ts : String)
        (v ev lv rv : JVal) (ss e l r : ℚ),
      strTruthy desc = true → t1.isEmpty = false →
      jlookup "skill_score" t1 = some v → pyNum v = some ss → θ1 ≤ ss →
      t2.isEmpty = false →
      tier2SubScore t2 "experience_match" = some ev → pyFloat ev = some e →
      tier2SubScore t2 "location_match" = some lv → pyFloat lv = some l →
      tier2SubScore t2 "role_match" = some rv → pyFloat rv = some r →
      (analyze_job true θ1 θF (some t1) (some t2) desc ts).result
          = some (successDict t1 t2 (specFinalScore ss e l r) θF ts) ∧
      jlookup "final_score_calculated" (successDict t1 t2 (specFinalScore ss e l r) θF ts)
          = some (JVal.num (specFinalScore ss e l r)) ∧
      jlookup "meets_final_threshold" (successDict t1 t2 (specFinalScore ss e l r) θF ts)
          = some (JVal.bool (decide (specFinalScore ss e l r ≥ θF)))) ∧
    specFinalScore 72 8 9 7 = 77.3 ∧
    meets_flag_read ((analyze_job true 60 75 (some demoT1) (some demoT2)
        (some "desc") "t").result.getD []) = true := by
  refine ⟨?_, ?_, ?_⟩
  · intro θ1 θF t1 t2 desc ts v ev lv rv ss e l r hd h1 hsk hv hge h2 hev hfe hlv hfl hrv hfr
    refine ⟨?_, rfl, rfl⟩
    rw [analyze_job_success θ1 θF t1 t2 desc ts v ev lv rv ss e l r hd h1 hsk hv
      (not_lt.mpr hge) h2 hev hfe hlv hfl hrv hfr]
  · norm_num [specFinalScore, pyRound1, roundHalfEven]
  · have hres := analyze_job_success 60 75 demoT1 demoT2 (some "desc") "t"
      (JVal.num 72) (JVal.num 8) (JVal.num 9) (JVal.num 7) 72 8 9 7
      rfl rfl rfl rfl (by norm_num) rfl rfl rfl rfl rfl rfl rfl
    rw [hres]
    show meets_flag_read (successDict demoT1 demoT2 (specFinalScore 72 8 9 7) 75 "t") = true
    have h77 : specFinalScore 72 8 9 7 = (77.3 : ℚ) := by
      norm_num [specFinalScore, pyRound1, roundHalfEven]
    rw [show meets_flag_read (successDict demoT1 demoT2 (specFinalScore 72 8 9 7) 75 "t")
        = decide (specFinalScore 72 8 9 7 ≥ (75 : ℚ)) from rfl, h77, decide_eq_true_eq]
    norm_num

/-- Witness for C3: applying the formula theorem at the concrete example
inputs gives the full-analysis dictionary with final score 77.3. -/
theorem C3_final_score_formula_witness :
    (analyze_job true 60 75 (some demoT1) (some demoT2) (some "desc") "t").result
      = some (successDict demoT1 demoT2 (specFinalScore 72 8 9 7) 75 "t") := by
  exact (C3_final_score_formula.1 60 75 demoT1 demoT2 (some "desc") "t"
    (JVal.num 72) (JVal.num 8) (JVal.num 9) (JVal.num 7) 72 8 9 7
    rfl rfl rfl rfl (by norm_num) rfl rfl rfl rfl rfl rfl rfl).1

/-- C10: whenever the LLM results are well-typed enough for `analyze_job` to
return at all (numeric `skill_score` if present, object-shaped sub-score
entries), the returned value is a dictionary that always contains
`analysis_timestamp`; `meets_final_threshold` reads as true (the way the
scraper reads it, with a missing key defaulting to false) only when
`final_score_calculated` is a number at least `final_threshold`; and on
every error path (`error` key present) it reads as false. -/
theorem C10_analysis_result_invariants (pf : Bool) (θ1 θF : ℚ)
    (t1o t2o : Option (List (String × JVal))) (desc : Option String) (ts : String)
    (h1 : t1SkillNumeric t1o = true) (h2 : t2SubsOk t2o = true) :
    ∃ d, (analyze_job pf θ1 θF t1o t2o desc ts).result = some d ∧
      hasKey "analysis_timestamp" d = true ∧
      (meets_flag_read d = true →
        ∃ q, jlookup "final_score_calculated" d = some (JVal.num q) ∧ θF ≤ q) ∧
      (hasKey "error" d = true → meets_flag_read d = false) := by
  cases pf with
  | false =>
    have hinv := analysis_dict_false_invariants θF (errorOnlyDict "Profile not loaded" ts) rfl
    exact ⟨errorOnlyDict "Profile not loaded" ts, rfl, rfl, hinv.1, hinv.2⟩
  | true =>
    cases hd : strTruthy desc with
    | false =>
      have hinv := analysis_dict_false_invariants θF
        (errorOnlyDict "Missing description" ts) rfl
      refine ⟨errorOnlyDict "Missing description" ts, ?_, rfl, hinv.1, hinv.2⟩
      rw [analyze_job_no_desc θ1 θF t1o t2o desc ts hd]
    | true =>
      cases t1o with
      | none =>
        have hinv := analysis_dict_false_invariants θF (tier1FailedDict none ts) rfl
        refine ⟨tier1FailedDict none ts, ?_, rfl, hinv.1, hinv.2⟩
        rw [analyze_job_t1_none θ1 θF t2o desc ts hd]
      | some t1 =>
        cases h1e : t1.isEmpty with
        | true =>
          have hinv := analysis_dict_false_invariants θF (tier1FailedDict (some t1) ts) rfl
          refine ⟨tier1FailedDict (some t1) ts, ?_, rfl, hinv.1, hinv.2⟩
          rw [analyze_job_t1_empty θ1 θF t1 t2o desc ts hd h1e]
        | false =>
          cases hsk : jlookup "skill_score" t1 with
          | none =>
            have hinv := analysis_dict_false_invariants θF
              (tier1FailedDict (some t1) ts) rfl
            refine ⟨tier1FailedDict (some t1) ts, ?_, rfl, hinv.1, hinv.2⟩
            rw [analyze_job_t1_noscore θ1 θF t1 t2o desc ts hd h1e hsk]
          | some v =>
            have hvs : (pyNum v).isSome = true := by
              have h1b := h1
              simp only [t1SkillNumeric, hsk] at h1b
              exact h1b
            obtain ⟨ss, hv⟩ := Option.isSome_iff_exists.mp hvs
            by_cases hlt : ss < θ1
            · have hinv := analysis_dict_false_invariants θF (belowThresholdDict t1 ts) rfl
              refine ⟨belowThresholdDict t1 ts, ?_, rfl, hinv.1, hinv.2⟩
              rw [analyze_job_below θ1 θF t1 t2o desc ts v ss hd h1e hsk hv hlt]
            · cases t2o with
              | none =>
                have hinv := analysis_dict_false_invariants θF (tier2FailedDict t1 ts) rfl
                refine ⟨tier2FailedDict t1 ts, ?_, rfl, hinv.1, hinv.2⟩
                rw [analyze_job_t2_none θ1 θF t1 desc ts v ss hd h1e hsk hv hlt]
              | some t2 =>
                cases h2e : t2.isEmpty with
                | true =>
                  have hinv := analysis_dict_false_invariants θF (tier2FailedDict t1 ts) rfl
                  refine ⟨tier2FailedDict t1 ts, ?_, rfl, hinv.1, hinv.2⟩
                  rw [analyze_job_t2_empty θ1 θF t1 t2 desc ts v ss hd h1e hsk hv hlt h2e]
                | false =>
                  have h2b := h2
                  simp only [t2SubsOk, Bool.and_eq_true] at h2b
                  obtain ⟨⟨hevs, hlvs⟩, hrvs⟩ := h2b
                  obtain ⟨ev, hev⟩ := Option.isSome_iff_exists.mp hevs
                  obtain ⟨lv, hlv⟩ := Option.isSome_iff_exists.mp hlvs
                  obtain ⟨rv, hrv⟩ := Option.isSome_iff_exists.mp hrvs
                  cases hfe : pyFloat ev with
                  | none =>
                    have hinv := analysis_dict_false_invariants θF (calcFailDict t1 t2 ts) rfl
                    refine ⟨calcFailDict t1 t2 ts, ?_, rfl, hinv.1, hinv.2⟩
                    rw [analyze_job_calc_fail θ1 θF t1 t2 desc ts v ev lv rv ss hd h1e hsk
                      hv hlt h2e hev hlv hrv (Or.inl hfe)]
                  | some e =>
                    cases hfl : pyFloat lv with
                    | none =>
                      have hinv := analysis_dict_false_invariants θF
                        (calcFailDict t1 t2 ts) rfl
                      refine ⟨calcFailDict t1 t2 ts, ?_, rfl, hinv.1, hinv.2⟩
                      rw [analyze_job_calc_fail θ1 θF t1 t2 desc ts v ev lv rv ss hd h1e
                        hsk hv hlt h2e hev hlv hrv (Or.inr (Or.inl hfl))]
                    | some l =>
                      cases hfr : pyFloat rv with
                      | none =>
                        have hinv := analysis_dict_false_invariants θF
                          (calcFailDict t1 t2 ts) rfl
                        refine ⟨calcFailDict t1 t2 ts, ?_, rfl, hinv.1, hinv.2⟩
                        rw [analyze_job_calc_fail θ1 θF t1 t2 desc ts v ev lv rv ss hd h1e
                          hsk hv hlt h2e hev hlv hrv (Or.inr (Or.inr hfr))]
                      | some r =>
                        refine ⟨successDict t1 t2 (specFinalScore ss e l r) θF ts,
                          ?_, rfl, ?_, ?_⟩
                        · rw [analyze_job_success θ1 θF t1 t2 desc ts v ev lv rv ss e l r
                            hd h1e hsk hv hlt h2e hev hfe hlv hfl hrv hfr]
                        · intro hm
                          have hred : meets_flag_read
                              (successDict t1 t2 (specFinalScore ss e l r) θF ts)
                              = decide (specFinalScore ss e l r ≥ θF) := rfl
                          rw [hred] at hm
                          exact ⟨specFinalScore ss e l r, rfl, of_decide_eq_true hm⟩
                        · intro he
                          have hno : hasKey "error"
                              (successDict t1 t2 (specFinalScore ss e l r) θF ts)
                              = false := rfl
                          exact absurd (hno.symm.trans he) (by simp)

/-- Witness for C10: a concrete run returns a dictionary carrying the
`analysis_timestamp` key. -/
theorem C10_analysis_result_invariants_witness :
    ((analyze_job true 60 75 (some demoT1) (some demoT2) (some "desc") "t").result).isSome
        = true ∧
    hasKey "analysis_timestamp"
        (((analyze_job true 60 75 (some demoT1) (some demoT2)
          (some "desc") "t").result).getD []) = true := by
  obtain ⟨d, hd1, hd2, _, _⟩ := C10_analysis_result_invariants true 60 75 (some demoT1)
    (some demoT2) (some "desc") "t" rfl rfl
  rw [hd1]
  exact ⟨rfl, hd2⟩

end RobertHalf
